import Mathlib

/-
Shallow embedding of the DataFusion SQL query planner core:
  - src/datafusion/sql/src/query.rs          (forward query planner)
  - src/datafusion/sql/src/unparser/ast.rs   (reverse unparser builders)

External types (sqlparser AST nodes, datafusion_expr logical-plan nodes) are
modelled to the extent the source inspects or constructs them; fields the
source only clones through are kept but their payload types are opaque stubs.
Delegated planning capabilities (select/set-expression/expression planning,
catalog resolution) live outside src/ and are modelled as opaque function
fields of the `SqlToRel` record.
-/

namespace DF

/-! ## sqlparser AST types (external input/output shapes) -/

/-- Source span (sqlparser tokenizer). Only `Span::empty()` is ever built here. -/
inductive Span where
  | empty
deriving DecidableEq

/-- sqlparser `Ident`. -/
structure Ident where
  value : String
  quote_style : Option Char
  span : Span
deriving DecidableEq

/-- sqlparser `BinaryOperator`; only `And` is constructed by this core. -/
inductive BinaryOperator where
  | And
  | Or
  | Eq
deriving DecidableEq

/-- sqlparser `Expr` (aliased `SQLExpr` in query.rs). The planner builds
`Identifier` nodes and the select builder builds `BinaryOp` conjunctions;
other expression shapes are opaque payloads (`Function` stands for any
function-call expression; its argument payload is elided). -/
inductive SQLExpr where
  | Identifier (id : Ident)
  | BinaryOp (left : SQLExpr) (op : BinaryOperator) (right : SQLExpr)
  | Value (v : Int)
  | Function (name : String)
deriving DecidableEq

/-- sqlparser `OrderByOptions`: shared ASC/DESC and NULLS FIRST/LAST flags. -/
structure OrderByOptions where
  asc : Option Bool
  nulls_first : Option Bool
deriving DecidableEq

/-- sqlparser `WithFill` (opaque: never inspected by this core). -/
inductive WithFill where
  | mk (tag : Nat)
deriving DecidableEq

/-- sqlparser `OrderByExpr`. -/
structure OrderByExpr where
  expr : SQLExpr
  options : OrderByOptions
  with_fill : Option WithFill
deriving DecidableEq

/-- sqlparser `OrderByKind`: `ORDER BY ALL <options>` or an explicit list. -/
inductive OrderByKind where
  | All (options : OrderByOptions)
  | Expressions (exprs : List OrderByExpr)
deriving DecidableEq

/-- sqlparser `Interpolate` (opaque: its presence alone is checked). -/
inductive Interpolate where
  | mk (tag : Nat)
deriving DecidableEq

/-- sqlparser `OrderBy`. -/
structure OrderBy where
  kind : OrderByKind
  interpolate : Option Interpolate
deriving DecidableEq

/-- sqlparser `OffsetRows` (`OFFSET n [ROW | ROWS]`). -/
inductive OffsetRows where
  | noneKw
  | row
  | rows
deriving DecidableEq

/-- sqlparser `Offset`. -/
structure Offset where
  value : SQLExpr
  rows : OffsetRows
deriving DecidableEq

/-- sqlparser `LimitClause`: the two surface shapes of LIMIT/OFFSET. -/
inductive LimitClause where
  | LimitOffset (limit : Option SQLExpr) (offset : Option Offset) (limit_by : List SQLExpr)
  | OffsetCommaLimit (offset : SQLExpr) (limit : SQLExpr)
deriving DecidableEq

/-- sqlparser `ObjectName`: a dotted chain of identifiers. -/
structure ObjectName where
  parts : List Ident
deriving DecidableEq

/-- sqlparser `SelectInto`. -/
structure SelectInto where
  temporary : Bool
  unlogged : Bool
  table : Bool
  name : ObjectName
deriving DecidableEq

/-- sqlparser `With` clause (opaque: handed wholesale to `plan_with_clause`). -/
inductive With where
  | mk (tag : Nat)
deriving DecidableEq

/-- sqlparser `Select`. query.rs only detaches `into`; every other field is
delegated wholesale to the external `select_to_plan`, so the remainder is an
opaque payload. -/
structure Select where
  into : Option SelectInto
  rest : Nat
deriving DecidableEq

/-- sqlparser `SetExpr`: a SELECT body, or any other body shape (set
operations, VALUES, nested query), which query.rs hands wholesale to the
external `set_expr_to_plan`. -/
inductive SetExpr where
  | Select (s : Select)
  | Other (tag : Nat)
deriving DecidableEq

/-- sqlparser `Fetch` (opaque). -/
inductive Fetch where
  | mk (tag : Nat)
deriving DecidableEq

/-- sqlparser `LockClause` (opaque). -/
inductive LockClause where
  | mk (tag : Nat)
deriving DecidableEq

/-- sqlparser `ForClause` (opaque). -/
inductive ForClause where
  | mk (tag : Nat)
deriving DecidableEq

/-- sqlparser `Settings` payload (opaque; always absent in built queries). -/
inductive Settings where
  | mk (tag : Nat)
deriving DecidableEq

/-- sqlparser `FormatClause` (opaque; always absent in built queries). -/
inductive FormatClause where
  | mk (tag : Nat)
deriving DecidableEq

/-- sqlparser `Query` node, with the fields query.rs and the query builder
touch (`with` is spelled `with_`: `with` is reserved in Lean). -/
structure Query where
  with_ : Option With
  body : SetExpr
  order_by : Option OrderBy
  limit_clause : Option LimitClause
  fetch : Option Fetch
  locks : List LockClause
  for_clause : Option ForClause
  settings : Option Settings
  format_clause : Option FormatClause
deriving DecidableEq

/-- sqlparser `TableAlias` (opaque). -/
inductive TableAlias where
  | mk (tag : Nat)
deriving DecidableEq

/-- sqlparser `Join` (opaque: only carried through by the builders). -/
inductive Join where
  | mk (tag : Nat)
deriving DecidableEq

/-- sqlparser `FunctionArg` (opaque). -/
inductive FunctionArg where
  | mk (tag : Nat)
deriving DecidableEq

/-- sqlparser `TableVersion` (opaque). -/
inductive TableVersion where
  | mk (tag : Nat)
deriving DecidableEq

/-- sqlparser `TableIndexHints` (opaque). -/
inductive TableIndexHints where
  | mk (tag : Nat)
deriving DecidableEq

/-- sqlparser `TableFunctionArgs`. -/
structure TableFunctionArgs where
  args : List FunctionArg
  settings : Option Settings
deriving DecidableEq

/-- sqlparser `TableFactor`: the three concrete relation shapes the relation
builders emit (`alias` is spelled `alias_`: `alias` is reserved in Lean). -/
inductive TableFactor where
  | Table (name : ObjectName) (alias_ : Option TableAlias)
      (args : Option TableFunctionArgs) (with_hints : List SQLExpr)
      (version : Option TableVersion) (partitions : List Ident)
      (with_ordinality : Bool) (json_path : Option Nat) (sample : Option Nat)
      (index_hints : List TableIndexHints)
  | Derived (lateral : Bool) (subquery : Query) (alias_ : Option TableAlias)
  | UNNEST (alias_ : Option TableAlias) (array_exprs : List SQLExpr)
      (with_offset : Bool) (with_offset_alias : Option Ident)
      (with_ordinality : Bool)
deriving DecidableEq

/-- sqlparser `TableWithJoins`: one FROM item. -/
structure TableWithJoins where
  relation : TableFactor
  joins : List Join
deriving DecidableEq

/-! ## datafusion logical-plan IR (external type, modelled on the variants
query.rs matches on or constructs) -/

/-- datafusion `Column`: an optionally qualified column reference. -/
structure Column where
  relation : Option String
  name : String
deriving DecidableEq

/-- datafusion logical `Expr`, modelled on the variants query.rs inspects:
`Expr::Column` is pattern-matched by the ORDER BY ALL expansion; every other
shape is an opaque stand-in (`ScalarFunction` for function calls, `Literal`
for constants). -/
inductive Expr where
  | Column (c : Column)
  | Literal (n : Int)
  | ScalarFunction (name : String)
deriving DecidableEq

/-- datafusion `Sort` sort expression (datafusion_expr::expr::Sort; named
`SortExpr` here because `Sort` is reserved in Lean). -/
structure SortExpr where
  expr : Expr
  asc : Bool
  nulls_first : Bool
deriving DecidableEq

/-- datafusion `TableReference` (resolved table name). -/
inductive TableReference where
  | bare (table : String)
  | withSchema (schema : String) (table : String)
  | full (catalog : String) (schema : String) (table : String)
deriving DecidableEq

/-- datafusion table `Constraints` element (opaque; only the empty default is
built here). -/
inductive Constraint where
  | mk (tag : Nat)
deriving DecidableEq

mutual
/-- datafusion `LogicalPlan`, modelled on the variants query.rs matches on or
constructs (`Sort`, `Limit`, `Distinct`, `Ddl`); the remaining constructors
stand for every other operator an external planner may return. -/
inductive LogicalPlan where
  | Projection (expr : List Expr) (input : LogicalPlan)
  | Filter (predicate : Expr) (input : LogicalPlan)
  | Sort (expr : List SortExpr) (input : LogicalPlan)
  | Limit (skip : Option Expr) (fetch : Option Expr) (input : LogicalPlan)
  | Distinct (d : Distinct)
  | Ddl (d : DdlStatement)
  | TableScan (table_name : String)
  | EmptyRelation

/-- datafusion `Distinct`: plain DISTINCT or DISTINCT ON. The `On` variant
carries the `DistinctOn` fields inline (on/select expressions, the optional
sort-expression slot, and the input). -/
inductive Distinct where
  | All (input : LogicalPlan)
  | On (on_expr : List Expr) (select_expr : List Expr)
      (sort_expr : Option (List SortExpr)) (input : LogicalPlan)

/-- datafusion `DdlStatement`, modelled on the one variant query.rs builds. -/
inductive DdlStatement where
  | CreateMemoryTable (name : TableReference) (constraints : List Constraint)
      (input : LogicalPlan) (if_not_exists : Bool) (or_replace : Bool)
      (temporary : Bool) (column_defaults : List (String × Expr))
end

/-! ## Error taxonomy and planner context -/

/-- datafusion `DataFusionError`, modelled on the classifications this core
raises or propagates: `NotImplemented` (from `not_impl_err!`) and a generic
stand-in for every other failure an external planner may return. -/
inductive DataFusionError where
  | NotImplemented (msg : String)
  | Plan (msg : String)
deriving DecidableEq

/-- datafusion `Result`. -/
abbrev DFResult (α : Type) : Type := Except DataFusionError α

/-- Planner context (planner.rs, not under src/): the CTE-name-to-plan scope;
query.rs only clones it and threads it through delegated calls. -/
abbrev PlannerContext : Type := List (String × LogicalPlan)

/-- The delegated planning capabilities that query.rs invokes but that are
defined outside src/ (select.rs, set_expr.rs, the expression planner, and
catalog resolution in planner.rs), modelled as opaque function fields; the
record stands in for the Rust `SqlToRel` receiver. `sql_to_expr` is always
invoked against the empty schema here, so the schema argument is elided;
`order_by_to_sort_expr` receives the plan in place of its schema. -/
structure SqlToRel where
  select_to_plan : Select → Option OrderBy → PlannerContext → DFResult LogicalPlan
  set_expr_to_plan : SetExpr → PlannerContext → DFResult LogicalPlan
  sql_to_expr : SQLExpr → PlannerContext → DFResult Expr
  order_by_to_sort_expr :
      List OrderByExpr → LogicalPlan → PlannerContext → DFResult (List SortExpr)
  object_name_to_table_reference : ObjectName → DFResult TableReference
  plan_with_clause : With → PlannerContext → DFResult PlannerContext

/-! ## Modelled datafusion_expr helpers (not under src/) -/

/-- Modelled from the spec: `LogicalPlanBuilder::sort` followed by `build()`
(datafusion_expr, not under src/) wraps the plan in a new Sort node carrying
the sort-expression list verbatim. -/
def LogicalPlanBuilder.sort (plan : LogicalPlan) (order_by : List SortExpr) :
    DFResult LogicalPlan :=
  .ok (.Sort order_by plan)

/-- Modelled from the spec: `LogicalPlanBuilder::limit_by_expr` followed by
`build()` (datafusion_expr, not under src/) wraps the input in a limit
operator carrying the resolved skip and fetch expressions. -/
def LogicalPlanBuilder.limit_by_expr (input : LogicalPlan)
    (skip fetch : Option Expr) : DFResult LogicalPlan :=
  .ok (.Limit skip fetch input)

/-- Modelled from the spec: `DistinctOn::with_sort_expr` (datafusion_expr,
not under src/) attaches the given sort list to the Distinct-On node's own
sort-expression slot, leaving its other fields unchanged. -/
def DistinctOn.with_sort_expr (on_expr select_expr : List Expr)
    (_sort_expr : Option (List SortExpr)) (input : LogicalPlan)
    (new_sort : List SortExpr) : DFResult Distinct :=
  .ok (.On on_expr select_expr (some new_sort) input)

/-! ## Forward query planner (query.rs) -/

/-- `Option::transpose` over a `Result`-valued option (Rust
`opt.map(f).transpose()?`). -/
def transposeResult {α : Type} : Option (DFResult α) → DFResult (Option α)
  | none => .ok none
  | some (.ok a) => .ok (some a)
  | some (.error e) => .error e

/-- Rust `iter().map(f).collect::<Result<Vec<_>>>()`: apply `f` to each
element in order, stopping at the first error. -/
def collectResults {α β : Type} (f : α → DFResult β) : List α → DFResult (List β)
  | [] => .ok []
  | a :: l =>
    match f a with
    | .error e => .error e
    | .ok b =>
      match collectResults f l with
      | .error e => .error e
      | .ok bs => .ok (b :: bs)

/-- `to_order_by_exprs_with_select` (query.rs): expands an optional ORDER BY
clause into concrete order-by expressions, expanding `ORDER BY ALL` over the
given select expressions when they are provided. -/
def to_order_by_exprs_with_select (order_by : Option OrderBy)
    (select_exprs : Option (List Expr)) : DFResult (List OrderByExpr) :=
  match order_by with
  | none => .ok []
  | some ob =>
    match ob.interpolate with
    | some _ => .error (.NotImplemented "ORDER BY INTERPOLATE is not supported")
    | none =>
      match ob.kind with
      | .All order_by_options =>
        match select_exprs with
        | none => .ok []
        | some exprs =>
          collectResults (fun select_expr =>
            match select_expr with
            | .Column column =>
              .ok { expr := .Identifier
                      { value := column.name, quote_style := none, span := .empty },
                    options := order_by_options,
                    with_fill := none }
            | _ => .error
                (.NotImplemented "ORDER BY ALL is not supported for non-column expressions"))
            exprs
      | .Expressions order_by_exprs => .ok order_by_exprs

/-- `to_order_by_exprs` (query.rs): the no-select-list entry point used for
non-SELECT query bodies. -/
def to_order_by_exprs (order_by : Option OrderBy) : DFResult (List OrderByExpr) :=
  to_order_by_exprs_with_select order_by none

/-- `SqlToRel::limit` (query.rs): normalizes the two limit-clause surface
shapes into a (skip, fetch, limit-by) triple planned against the empty
schema, rejects LIMIT BY, passes the input through when both skip and fetch
are absent, and otherwise wraps the input in a limit operator. -/
def SqlToRel.limit (self : SqlToRel) (input : LogicalPlan)
    (limit_clause : Option LimitClause) (planner_context : PlannerContext) :
    DFResult LogicalPlan :=
  match limit_clause with
  | none => .ok input
  | some limit_clause =>
    let triple : DFResult (Option Expr × Option Expr × List Expr) :=
      match limit_clause with
      | .LimitOffset limit offset limit_by =>
        match transposeResult
            (offset.map fun o => self.sql_to_expr o.value planner_context) with
        | .error e => .error e
        | .ok skip =>
          match transposeResult
              (limit.map fun e => self.sql_to_expr e planner_context) with
          | .error e => .error e
          | .ok fetch =>
            match collectResults (fun e => self.sql_to_expr e planner_context) limit_by with
            | .error e => .error e
            | .ok limit_by_exprs => .ok (skip, fetch, limit_by_exprs)
      | .OffsetCommaLimit offset limit =>
        match self.sql_to_expr offset planner_context with
        | .error e => .error e
        | .ok skip =>
          match self.sql_to_expr limit planner_context with
          | .error e => .error e
          | .ok fetch => .ok (some skip, some fetch, [])
    match triple with
    | .error e => .error e
    | .ok (skip, fetch, limit_by_exprs) =>
      if !limit_by_exprs.isEmpty then
        .error (.NotImplemented "LIMIT BY clause is not supported yet")
      else if skip.isNone && fetch.isNone then
        .ok input
      else
        LogicalPlanBuilder.limit_by_expr input skip fetch

/-- `SqlToRel::order_by` (query.rs): no-op on an empty sort list; attaches
the sort list to a Distinct-On root via `with_sort_expr`; otherwise wraps the
plan in a new Sort node via the plan builder. -/
def SqlToRel.order_by (_self : SqlToRel) (plan : LogicalPlan)
    (order_by : List SortExpr) : DFResult LogicalPlan :=
  if order_by.isEmpty then .ok plan
  else
    match plan with
    | .Distinct (.On on_expr select_expr sort_expr input) =>
      match DistinctOn.with_sort_expr on_expr select_expr sort_expr input order_by with
      | .error e => .error e
      | .ok distinct_on => .ok (.Distinct distinct_on)
    | plan => LogicalPlanBuilder.sort plan order_by

/-- `SqlToRel::select_into` (query.rs): no-op without an INTO target;
otherwise resolves the target name and wraps the plan in a CreateMemoryTable
DDL node with default constraints, all flags false and no column defaults. -/
def SqlToRel.select_into (self : SqlToRel) (plan : LogicalPlan)
    (select_into : Option SelectInto) : DFResult LogicalPlan :=
  match select_into with
  | some into =>
    match self.object_name_to_table_reference into.name with
    | .error e => .error e
    | .ok name =>
      .ok (.Ddl (.CreateMemoryTable name [] plan false false false []))
  | none => .ok plan

/-- `SqlToRel::query_to_plan` (query.rs): clones the outer context, plans the
WITH clause into it, then dispatches on the body shape. A SELECT body has its
INTO target detached, is planned by the delegated select planner (which also
receives the ORDER BY clause), wrapped by `limit`, and wrapped by
`select_into` last. Any other body is planned by the delegated
set-expression planner (the Rust `StackGuard` enlarging the call stack has no
observable effect on the value and is elided), then wrapped by `order_by`
(sort expressions resolved against the result schema) and by `limit` last. -/
def SqlToRel.query_to_plan (self : SqlToRel) (query : Query)
    (outer_planner_context : PlannerContext) : DFResult LogicalPlan :=
  let ctxResult : DFResult PlannerContext :=
    match query.with_ with
    | some w => self.plan_with_clause w outer_planner_context
    | none => .ok outer_planner_context
  match ctxResult with
  | .error e => .error e
  | .ok planner_context =>
    match query.body with
    | .Select s =>
      let select_into := s.into
      match self.select_to_plan { s with into := none } query.order_by
          planner_context with
      | .error e => .error e
      | .ok plan =>
        match self.limit plan query.limit_clause planner_context with
        | .error e => .error e
        | .ok plan => self.select_into plan select_into
    | other =>
      match self.set_expr_to_plan other planner_context with
      | .error e => .error e
      | .ok plan =>
        match to_order_by_exprs query.order_by with
        | .error e => .error e
        | .ok oby_exprs =>
          match self.order_by_to_sort_expr oby_exprs plan planner_context with
          | .error e => .error e
          | .ok order_by_rex =>
            match self.order_by plan order_by_rex with
            | .error e => .error e
            | .ok plan => self.limit plan query.limit_clause planner_context

/-! ## Reverse unparser builders (unparser/ast.rs) -/

/-- `BuilderError` (unparser/ast.rs): the shared failure vocabulary of every
builder finalizer. -/
inductive BuilderError where
  | UninitializedField (field : String)
  | ValidationError (msg : String)
deriving DecidableEq

/-- sqlparser `Top` (opaque). -/
inductive Top where
  | mk (tag : Nat)
deriving DecidableEq

/-- sqlparser `SelectItem` (opaque). -/
inductive SelectItem where
  | mk (tag : Nat)
deriving DecidableEq

/-- sqlparser `LateralView` (opaque). -/
inductive LateralView where
  | mk (tag : Nat)
deriving DecidableEq

/-- sqlparser `NamedWindowDefinition` (opaque). -/
inductive NamedWindowDefinition where
  | mk (tag : Nat)
deriving DecidableEq

/-- sqlparser `ValueTableMode` (opaque). -/
inductive ValueTableMode where
  | mk (tag : Nat)
deriving DecidableEq

/-- sqlparser `GroupByWithModifier` (opaque). -/
inductive GroupByWithModifier where
  | mk (tag : Nat)
deriving DecidableEq

/-- sqlparser `GroupByExpr`. -/
inductive GroupByExpr where
  | All (modifiers : List GroupByWithModifier)
  | Expressions (exprs : List SQLExpr) (modifiers : List GroupByWithModifier)
deriving DecidableEq

/-- sqlparser `SelectFlavor`. -/
inductive SelectFlavor where
  | Standard
  | FromFirst
  | FromFirstNoSelect
deriving DecidableEq

/-- sqlparser `Distinct` AST node for the select builder's DISTINCT modifier
(named `AstDistinct` to keep it apart from the logical-plan `Distinct`). -/
inductive AstDistinct where
  | distinct
  | on (exprs : List SQLExpr)
deriving DecidableEq

/-- `QueryBuilder` (unparser/ast.rs): the mutable staging record for one
sqlparser `Query` node (`with` is spelled `with_`: `with` is reserved in
Lean). -/
structure QueryBuilder where
  with_ : Option With
  body : Option SetExpr
  order_by_kind : Option OrderByKind
  limit : Option SQLExpr
  limit_by : List SQLExpr
  offset : Option Offset
  fetch : Option Fetch
  locks : List LockClause
  for_clause : Option ForClause
  distinct_union : Bool
deriving DecidableEq

/-- `QueryBuilder::build` (unparser/ast.rs): fails with
`UninitializedField("body")` when no body was set; otherwise assembles the
query node, collapsing limit/offset/limit-by into one keyword-style limit
clause and rebuilding the ORDER BY from the stored kind with no
interpolation. -/
def QueryBuilder.build (self : QueryBuilder) : Except BuilderError Query :=
  let order_by : Option OrderBy :=
    self.order_by_kind.map fun order_by_kind =>
      { kind := order_by_kind, interpolate := none }
  match self.body with
  | none => .error (.UninitializedField "body")
  | some body =>
    .ok { with_ := self.with_
          body := body
          order_by := order_by
          limit_clause := some (.LimitOffset self.limit self.offset self.limit_by)
          fetch := self.fetch
          locks := self.locks
          for_clause := self.for_clause
          settings := none
          format_clause := none }

/-- `QueryBuilder::create_empty` / `Default` (unparser/ast.rs). -/
def QueryBuilder.create_empty : QueryBuilder :=
  { with_ := none
    body := none
    order_by_kind := none
    limit := none
    limit_by := []
    offset := none
    fetch := none
    locks := []
    for_clause := none
    distinct_union := false }

/-- `TableRelationBuilder` (unparser/ast.rs). -/
structure TableRelationBuilder where
  name : Option ObjectName
  alias_ : Option TableAlias
  args : Option (List FunctionArg)
  with_hints : List SQLExpr
  version : Option TableVersion
  partitions : List Ident
  index_hints : List TableIndexHints
deriving DecidableEq

/-- `TableRelationBuilder::build` (unparser/ast.rs): requires `name`; every
other field defaults (no ordinality, no json path, no sampling). -/
def TableRelationBuilder.build (self : TableRelationBuilder) :
    Except BuilderError TableFactor :=
  match self.name with
  | none => .error (.UninitializedField "name")
  | some name =>
    .ok (.Table name self.alias_
      (self.args.map fun args => { args := args, settings := none })
      self.with_hints self.version self.partitions false none none
      self.index_hints)

/-- `TableRelationBuilder::create_empty` / `Default` (unparser/ast.rs). -/
def TableRelationBuilder.create_empty : TableRelationBuilder :=
  { name := none
    alias_ := none
    args := none
    with_hints := []
    version := none
    partitions := []
    index_hints := [] }

/-- `DerivedRelationBuilder` (unparser/ast.rs). -/
structure DerivedRelationBuilder where
  lateral : Option Bool
  subquery : Option Query
  alias_ : Option TableAlias
deriving DecidableEq

/-- `DerivedRelationBuilder::build` (unparser/ast.rs): requires `lateral`
(checked first) and `subquery`. -/
def DerivedRelationBuilder.build (self : DerivedRelationBuilder) :
    Except BuilderError TableFactor :=
  match self.lateral with
  | none => .error (.UninitializedField "lateral")
  | some lateral =>
    match self.subquery with
    | none => .error (.UninitializedField "subquery")
    | some subquery => .ok (.Derived lateral subquery self.alias_)

/-- `UnnestRelationBuilder` (unparser/ast.rs). -/
structure UnnestRelationBuilder where
  alias_ : Option TableAlias
  array_exprs : List SQLExpr
  with_offset : Bool
  with_offset_alias : Option Ident
  with_ordinality : Bool
deriving DecidableEq

/-- `UnnestRelationBuilder::build` (unparser/ast.rs): never fails; every
field already carries a default. -/
def UnnestRelationBuilder.build (self : UnnestRelationBuilder) :
    Except BuilderError TableFactor :=
  .ok (.UNNEST self.alias_ self.array_exprs self.with_offset
    self.with_offset_alias self.with_ordinality)

/-- `TableFactorBuilder` (unparser/ast.rs): the closed four-variant relation
kind wrapped by `RelationBuilder`. -/
inductive TableFactorBuilder where
  | Table (b : TableRelationBuilder)
  | Derived (b : DerivedRelationBuilder)
  | Unnest (b : UnnestRelationBuilder)
  | Empty
deriving DecidableEq

/-- `RelationBuilder` (unparser/ast.rs). -/
structure RelationBuilder where
  relation : Option TableFactorBuilder
deriving DecidableEq

/-- `RelationBuilder::build` (unparser/ast.rs): dispatches to the active
variant's finalizer; the Empty variant yields no relation at all (`ok none`),
and a never-set variant is an uninitialized-field error. -/
def RelationBuilder.build (self : RelationBuilder) :
    Except BuilderError (Option TableFactor) :=
  match self.relation with
  | some (.Table v) =>
    match v.build with
    | .error e => .error e
    | .ok f => .ok (some f)
  | some (.Derived v) =>
    match v.build with
    | .error e => .error e
    | .ok f => .ok (some f)
  | some (.Unnest v) =>
    match v.build with
    | .error e => .error e
    | .ok f => .ok (some f)
  | some .Empty => .ok none
  | none => .error (.UninitializedField "relation")

/-- `TableWithJoinsBuilder` (unparser/ast.rs): one relation builder plus the
ordered join list. -/
structure TableWithJoinsBuilder where
  relation : Option RelationBuilder
  joins : List Join
deriving DecidableEq

/-- `TableWithJoinsBuilder::build` (unparser/ast.rs): fails when no relation
builder was set; passes through the relation builder's "no relation" signal
(`ok none`); otherwise pairs the built relation with the join list. -/
def TableWithJoinsBuilder.build (self : TableWithJoinsBuilder) :
    Except BuilderError (Option TableWithJoins) :=
  match self.relation with
  | some value =>
    match value.build with
    | .error e => .error e
    | .ok (some relation) => .ok (some { relation := relation, joins := self.joins })
    | .ok none => .ok none
  | none => .error (.UninitializedField "relation")

/-- `SelectBuilder` (unparser/ast.rs): the staging record for one sqlparser
`Select` node (`from` is spelled `from_`: `from` is reserved in Lean). -/
structure SelectBuilder where
  distinct : Option AstDistinct
  top : Option Top
  projection : List SelectItem
  into : Option SelectInto
  from_ : List TableWithJoinsBuilder
  lateral_views : List LateralView
  selection : Option SQLExpr
  group_by : Option GroupByExpr
  cluster_by : List SQLExpr
  distribute_by : List SQLExpr
  sort_by : List SQLExpr
  having : Option SQLExpr
  named_window : List NamedWindowDefinition
  qualify : Option SQLExpr
  value_table_mode : Option ValueTableMode
  flavor : Option SelectFlavor
deriving DecidableEq

/-- `SelectBuilder::selection` (unparser/ast.rs; named `set_selection` here
because the field and the setter share a name in Rust): combines an existing
predicate with a new one by conjunction (existing on the left), installs a
first predicate directly, and treats `none` as a no-op. -/
def SelectBuilder.set_selection (self : SelectBuilder) (value : Option SQLExpr) :
    SelectBuilder :=
  match self.selection, value with
  | some existing_selection, some new_selection =>
    { self with
      selection := some (.BinaryOp existing_selection .And new_selection) }
  | none, some new_selection => { self with selection := some new_selection }
  | _, none => self

/-- `SelectBuilder::create_empty` / `Default` (unparser/ast.rs): `group_by`
and `flavor` are the only fields pre-populated with non-trivial defaults. -/
def SelectBuilder.create_empty : SelectBuilder :=
  { distinct := none
    top := none
    projection := []
    into := none
    from_ := []
    lateral_views := []
    selection := none
    group_by := some (.Expressions [] [])
    cluster_by := []
    distribute_by := []
    sort_by := []
    having := none
    named_window := []
    qualify := none
    value_table_mode := none
    flavor := some .Standard }

/-! ## Helper lemmas about `collectResults` -/

/-- When `f` succeeds pointwise with value `g e`, collecting succeeds with
the mapped list. -/
theorem collectResults_ok_of_pointwise {α β : Type} (f : α → DFResult β)
    (g : α → β) (l : List α) (h : ∀ e ∈ l, f e = .ok (g e)) :
    collectResults f l = .ok (l.map g) := by
  induction l with
  | nil => rfl
  | cons a l ih =>
    have ha : f a = .ok (g a) := h a (List.mem_cons_self a l)
    have hl : collectResults f l = .ok (l.map g) :=
      ih fun e he => h e (List.mem_cons_of_mem a he)
    simp [collectResults, ha, hl]

/-- When every element either fails with the fixed error `msg` or succeeds,
and at least one fails, collecting fails with `msg`. -/
theorem collectResults_error_of_exists {α β : Type} (f : α → DFResult β)
    (msg : DataFusionError) (l : List α)
    (htotal : ∀ e ∈ l, f e = .error msg ∨ ∃ b, f e = .ok b)
    (hex : ∃ e ∈ l, f e = .error msg) :
    collectResults f l = .error msg := by
  induction l with
  | nil =>
    rcases hex with ⟨e, he, _⟩
    cases he
  | cons a l ih =>
    rcases htotal a (List.mem_cons_self a l) with ha | ⟨b, hb⟩
    · simp [collectResults, ha]
    · have hex' : ∃ e ∈ l, f e = .error msg := by
        rcases hex with ⟨e, he, herr⟩
        rcases List.mem_cons.mp he with rfl | hmem
        · rw [hb] at herr
          cases herr
        · exact ⟨e, hmem, herr⟩
      have hl : collectResults f l = .error msg :=
        ih (fun e he => htotal e (List.mem_cons_of_mem a he)) hex'
      simp [collectResults, hb, hl]

/-- When `f` succeeds on every element, collecting succeeds with a list of
the same length. -/
theorem collectResults_ok_of_forall_ok {α β : Type} (f : α → DFResult β)
    (l : List α) (h : ∀ e ∈ l, ∃ b, f e = .ok b) :
    ∃ bs, collectResults f l = .ok bs ∧ bs.length = l.length := by
  induction l with
  | nil => exact ⟨[], rfl, rfl⟩
  | cons a l ih =>
    rcases h a (List.mem_cons_self a l) with ⟨b, hb⟩
    rcases ih (fun e he => h e (List.mem_cons_of_mem a he)) with ⟨bs, hbs, hlen⟩
    refine ⟨b :: bs, ?_, ?_⟩
    · simp [collectResults, hb, hbs]
    · simp [hlen]

/-! ## Concrete sample instances (used by the witness theorems) -/

/-- A concrete instantiation of the delegated planning capabilities: plans
literals and identifiers, resolves single-part object names, and returns
fixed table scans for delegated bodies. -/
def sampleRel : SqlToRel where
  select_to_plan := fun _ _ _ => .ok (.TableScan "t")
  set_expr_to_plan := fun _ _ => .ok (.TableScan "u")
  sql_to_expr := fun e _ =>
    match e with
    | .Value n => .ok (.Literal n)
    | .Identifier i => .ok (.Column { relation := none, name := i.value })
    | _ => .error (.Plan "unsupported scalar expression")
  order_by_to_sort_expr := fun obe _ _ =>
    .ok (obe.map fun _ => { expr := .Literal 0, asc := true, nulls_first := true })
  object_name_to_table_reference := fun objName =>
    match objName.parts with
    | [i] => .ok (.bare i.value)
    | _ => .error (.Plan "unsupported object name")
  plan_with_clause := fun _ ctx => .ok ctx

/-- A concrete SELECT INTO target named `t_out`. -/
def sampleInto : SelectInto :=
  { temporary := false
    unlogged := false
    table := false
    name := { parts := [{ value := "t_out", quote_style := none, span := .empty }] } }

/-- A concrete keyword-style limit clause `LIMIT 10`. -/
def sampleLimitClause : LimitClause := .LimitOffset (some (.Value 10)) none []

/-- A concrete SELECT carrying the sample INTO target. -/
def sampleSelect : Select := { into := some sampleInto, rest := 0 }

/-- A concrete query `SELECT ... INTO t_out ... LIMIT 10`. -/
def sampleQuery : Query :=
  { with_ := none
    body := .Select sampleSelect
    order_by := none
    limit_clause := some sampleLimitClause
    fetch := none
    locks := []
    for_clause := none
    settings := none
    format_clause := none }

/-- The plan `sampleRel` produces for `sampleQuery`. -/
def samplePlan : LogicalPlan :=
  .Ddl (.CreateMemoryTable (.bare "t_out") []
    (.Limit none (some (.Literal 10)) (.TableScan "t")) false false false [])

/-- A concrete column expression `x`. -/
def colX : Expr := .Column { relation := none, name := "x" }

/-- A concrete sort expression `x ASC`. -/
def sortX : SortExpr := { expr := colX, asc := true, nulls_first := false }

/-- A concrete Distinct-On plan rooted over a table scan. -/
def samplePlanDistinctOn : LogicalPlan :=
  .Distinct (.On [colX] [colX] none (.TableScan "t"))

/-! ## Claim theorems -/

/-- C5: `limit` returns the input plan unchanged when no limit clause is
present, and also when a clause is present but both skip and fetch are
absent and its LIMIT BY list is empty. -/
theorem C5_limit_noop (self : SqlToRel) (input : LogicalPlan)
    (ctx : PlannerContext) :
    self.limit input none ctx = .ok input ∧
    self.limit input (some (.LimitOffset none none [])) ctx = .ok input := by
  exact ⟨rfl, rfl⟩

/-- C6: `select_into` with no INTO target returns the plan unchanged; with a
target whose name resolves to a table reference it returns a
CreateMemoryTable DDL node wrapping the plan with empty constraints, all
flags false and no column defaults. -/
theorem C6_select_into_shape (self : SqlToRel) (plan : LogicalPlan) :
    self.select_into plan none = .ok plan ∧
    (∀ (tgt : SelectInto) (name : TableReference),
      self.object_name_to_table_reference tgt.name = .ok name →
      self.select_into plan (some tgt) =
        .ok (.Ddl (.CreateMemoryTable name [] plan false false false []))) := by
  constructor
  · rfl
  · intro tgt name h
    simp [SqlToRel.select_into, h]

/-- C6 witness: evaluated at `sampleRel`, a concrete plan and the sample
INTO target. -/
theorem C6_select_into_shape_witness :
    sampleRel.select_into (.TableScan "t") none = .ok (.TableScan "t") ∧
    sampleRel.object_name_to_table_reference sampleInto.name = .ok (.bare "t_out") ∧
    sampleRel.select_into (.TableScan "t") (some sampleInto) =
      .ok (.Ddl (.CreateMemoryTable (.bare "t_out") [] (.TableScan "t")
        false false false [])) :=
  ⟨(C6_select_into_shape sampleRel (.TableScan "t")).1, rfl,
    (C6_select_into_shape sampleRel (.TableScan "t")).2 sampleInto (.bare "t_out") rfl⟩

/-- C7: starting from a builder with no predicate, `selection(P1)` then
`selection(P2)` yields the single predicate `AND(P1, P2)` with the existing
predicate on the left, and `selection(None)` leaves the builder entirely
unchanged in any state. -/
theorem C7_selection_conjunction (b : SelectBuilder) (P1 P2 : SQLExpr) :
    (b.selection = none →
      ((b.set_selection (some P1)).set_selection (some P2)).selection =
        some (.BinaryOp P1 .And P2)) ∧
    b.set_selection none = b := by
  constructor
  · intro h
    simp [SelectBuilder.set_selection, h]
  · cases hsel : b.selection <;>
      simp [SelectBuilder.set_selection, hsel]

/-- C7 witness: evaluated at the default select builder with two concrete
predicates. -/
theorem C7_selection_conjunction_witness :
    SelectBuilder.create_empty.selection = none ∧
    ((SelectBuilder.create_empty.set_selection
        (some (.Value 1))).set_selection (some (.Value 2))).selection =
      some (.BinaryOp (.Value 1) .And (.Value 2)) ∧
    SelectBuilder.create_empty.set_selection none = SelectBuilder.create_empty :=
  ⟨rfl,
    (C7_selection_conjunction SelectBuilder.create_empty (.Value 1) (.Value 2)).1 rfl,
    (C7_selection_conjunction SelectBuilder.create_empty (.Value 1) (.Value 2)).2⟩

/-- C8: the query builder's finalizer fails with `UninitializedField("body")`
exactly when no body was set; with body `B` set it succeeds and the emitted
query's body equals `B`. -/
theorem C8_query_builder_build (qb : QueryBuilder) :
    (qb.body = none → qb.build = .error (.UninitializedField "body")) ∧
    (∀ B, qb.body = some B → ∃ q, qb.build = .ok q ∧ q.body = B) := by
  constructor
  · intro h
    simp [QueryBuilder.build, h]
  · intro B h
    refine ⟨{ with_ := qb.with_
              body := B
              order_by := qb.order_by_kind.map fun k =>
                { kind := k, interpolate := none }
              limit_clause := some (.LimitOffset qb.limit qb.offset qb.limit_by)
              fetch := qb.fetch
              locks := qb.locks
              for_clause := qb.for_clause
              settings := none
              format_clause := none }, ?_, rfl⟩
    simp [QueryBuilder.build, h]

/-- C8 witness: the empty builder fails; after setting a concrete body the
build succeeds and preserves it. -/
theorem C8_query_builder_build_witness :
    QueryBuilder.create_empty.body = none ∧
    QueryBuilder.create_empty.build = .error (.UninitializedField "body") ∧
    ({ QueryBuilder.create_empty with body := some (.Other 7) } :
        QueryBuilder).body = some (.Other 7) ∧
    ∃ q, ({ QueryBuilder.create_empty with body := some (.Other 7)} :
        QueryBuilder).build = .ok q ∧ q.body = .Other 7 :=
  ⟨rfl, (C8_query_builder_build QueryBuilder.create_empty).1 rfl, rfl,
    (C8_query_builder_build
      { QueryBuilder.create_empty with body := some (.Other 7) }).2 (.Other 7) rfl⟩

/-- C9: the table-with-joins finalizer fails with
`UninitializedField("relation")` when no relation builder was set, returns no
output node (`ok none`, distinct both from an error and from any FROM item)
when the relation builder's active variant is Empty, and otherwise pairs the
built relation with the join list. -/
theorem C9_table_with_joins_build (twj : TableWithJoinsBuilder) :
    (twj.relation = none → twj.build = .error (.UninitializedField "relation")) ∧
    (∀ rb, twj.relation = some rb → rb.relation = some .Empty →
      twj.build = .ok none) ∧
    (∀ rb f, twj.relation = some rb → rb.build = .ok (some f) →
      twj.build = .ok (some { relation := f, joins := twj.joins })) := by
  refine ⟨?_, ?_, ?_⟩
  · intro h
    simp [TableWithJoinsBuilder.build, h]
  · intro rb hrel hempty
    simp [TableWithJoinsBuilder.build, hrel, RelationBuilder.build, hempty]
  · intro rb f hrel hbuild
    simp [TableWithJoinsBuilder.build, hrel, hbuild]

/-- A concrete object name `t`. -/
def sampleTableName : ObjectName :=
  { parts := [{ value := "t", quote_style := none, span := .empty }] }

/-- A table relation builder with only its name set. -/
def sampleTableRelationBuilder : TableRelationBuilder :=
  { TableRelationBuilder.create_empty with name := some sampleTableName }

/-- The table factor `sampleTableRelationBuilder` builds. -/
def sampleTableFactor : TableFactor :=
  .Table sampleTableName none none [] none [] false none none []

/-- A relation builder whose active variant is the sample table builder. -/
def sampleRelationBuilder : RelationBuilder :=
  { relation := some (.Table sampleTableRelationBuilder) }

/-- A table-with-joins builder around the sample relation with one join. -/
def sampleTWJBuilder : TableWithJoinsBuilder :=
  { relation := some sampleRelationBuilder, joins := [.mk 3] }

/-- C9 witness: evaluated at a never-set builder, an Empty-variant builder,
and a concrete table-variant builder. -/
theorem C9_table_with_joins_build_witness :
    ({ relation := none, joins := [] } : TableWithJoinsBuilder).build =
      .error (.UninitializedField "relation") ∧
    ({ relation := some { relation := some .Empty }, joins := [] } :
        TableWithJoinsBuilder).build = .ok none ∧
    sampleRelationBuilder.build = .ok (some sampleTableFactor) ∧
    sampleTWJBuilder.build =
      .ok (some { relation := sampleTableFactor, joins := [.mk 3] }) :=
  ⟨(C9_table_with_joins_build { relation := none, joins := [] }).1 rfl,
    (C9_table_with_joins_build
      { relation := some { relation := some .Empty }, joins := [] }).2.1
      { relation := some .Empty } rfl rfl,
    rfl,
    (C9_table_with_joins_build sampleTWJBuilder).2.2
      sampleRelationBuilder sampleTableFactor rfl rfl⟩

/-- C10: for an ORDER BY ALL clause without INTERPOLATE,
`to_order_by_exprs_with_select` with no select-expression list succeeds with
the empty list rather than failing, and the no-select-list entry point
`to_order_by_exprs` used by the non-SELECT query path always takes exactly
this route. -/
theorem C10_order_by_all_no_select_list (options : OrderByOptions)
    (ob : Option OrderBy) :
    to_order_by_exprs_with_select
        (some { kind := .All options, interpolate := none }) none = .ok [] ∧
    to_order_by_exprs ob = to_order_by_exprs_with_select ob none := by
  exact ⟨rfl, rfl⟩

/-- The name a plain column-reference expression carries (helper for stating
the ORDER BY ALL expansion; only applied under the all-columns hypothesis). -/
def columnNameOf : Expr → String
  | .Column c => c.name
  | _ => ""

/-- C2: for an ORDER BY ALL clause (no INTERPOLATE) and a provided select
list, the expansion returns one order-by entry per select output in order,
each naming that column and carrying the shared options, when every select
output is a plain column reference; and fails with NotImplemented when any
select output is not a plain column reference. -/
theorem C2_order_by_all_expansion (options : OrderByOptions)
    (exprs : List Expr) :
    ((∀ e ∈ exprs, ∃ c, e = Expr.Column c) →
      to_order_by_exprs_with_select
          (some { kind := .All options, interpolate := none }) (some exprs) =
        .ok (exprs.map fun e =>
          { expr := .Identifier
              { value := columnNameOf e, quote_style := none, span := .empty }
            options := options
            with_fill := none })) ∧
    ((∃ e ∈ exprs, ∀ c, e ≠ Expr.Column c) →
      to_order_by_exprs_with_select
          (some { kind := .All options, interpolate := none }) (some exprs) =
        .error
          (.NotImplemented "ORDER BY ALL is not supported for non-column expressions")) := by
  constructor
  · intro hall
    simp only [to_order_by_exprs_with_select]
    refine collectResults_ok_of_pointwise _ _ exprs ?_
    intro e he
    rcases hall e he with ⟨c, rfl⟩
    rfl
  · intro hbad
    simp only [to_order_by_exprs_with_select]
    refine collectResults_error_of_exists _ _ exprs ?_ ?_
    · intro e _
      cases e with
      | Column c => exact Or.inr ⟨_, rfl⟩
      | Literal n => exact Or.inl rfl
      | ScalarFunction s => exact Or.inl rfl
    · rcases hbad with ⟨e, he, hne⟩
      refine ⟨e, he, ?_⟩
      cases e with
      | Column c => exact absurd rfl (hne c)
      | Literal n => rfl
      | ScalarFunction s => rfl

/-- C2 witness: ORDER BY ALL DESC over the plain columns `[colA, colB]`
returns `[colA DESC, colB DESC]`; over a function-call select output it
fails with NotImplemented. -/
theorem C2_order_by_all_expansion_witness :
    to_order_by_exprs_with_select
        (some { kind := .All { asc := some false, nulls_first := none },
                interpolate := none })
        (some [Expr.Column { relation := none, name := "colA" },
               Expr.Column { relation := none, name := "colB" }]) =
      .ok [{ expr := .Identifier
               { value := "colA", quote_style := none, span := .empty }
             options := { asc := some false, nulls_first := none }
             with_fill := none },
           { expr := .Identifier
               { value := "colB", quote_style := none, span := .empty }
             options := { asc := some false, nulls_first := none }
             with_fill := none }] ∧
    to_order_by_exprs_with_select
        (some { kind := .All { asc := some false, nulls_first := none },
                interpolate := none })
        (some [Expr.ScalarFunction "f"]) =
      .error
        (.NotImplemented "ORDER BY ALL is not supported for non-column expressions") := by
  constructor
  · exact (C2_order_by_all_expansion
      { asc := some false, nulls_first := none } _).1
      (by intro e he
          simp only [List.mem_cons, List.not_mem_nil, or_false] at he
          rcases he with rfl | rfl
          · exact ⟨_, rfl⟩
          · exact ⟨_, rfl⟩)
  · exact (C2_order_by_all_expansion
      { asc := some false, nulls_first := none } _).2
      ⟨Expr.ScalarFunction "f", List.mem_singleton.mpr rfl,
        fun c h => by cases h⟩

/-- C3: `order_by` with an empty sort list is the identity; with a non-empty
list it attaches the list to a Distinct-On root's own sort-expression slot
without introducing a Sort node, and wraps any other root in a new Sort node
carrying the list verbatim. -/
theorem C3_order_by_shape (self : SqlToRel) (plan : LogicalPlan)
    (ob : List SortExpr) :
    self.order_by plan [] = .ok plan ∧
    (ob ≠ [] →
      (∀ on_e sel_e se input,
        plan = .Distinct (.On on_e sel_e se input) →
        self.order_by plan ob = .ok (.Distinct (.On on_e sel_e (some ob) input))) ∧
      ((∀ on_e sel_e se input,
          plan ≠ .Distinct (.On on_e sel_e se input)) →
        self.order_by plan ob = .ok (.Sort ob plan))) := by
  constructor
  · rfl
  · intro hne
    have hemp : ob.isEmpty = false := by
      cases ob with
      | nil => exact absurd rfl hne
      | cons a l => rfl
    constructor
    · rintro on_e sel_e se input rfl
      simp [SqlToRel.order_by, hemp, DistinctOn.with_sort_expr]
    · intro h
      cases plan
      case Distinct d =>
        cases d with
        | All input =>
          simp [SqlToRel.order_by, hemp, LogicalPlanBuilder.sort]
        | On a b c d2 => exact absurd rfl (h a b c d2)
      all_goals simp [SqlToRel.order_by, hemp, LogicalPlanBuilder.sort]

/-- C3 witness: evaluated at the empty list, at a concrete Distinct-On plan,
and at a concrete Projection plan with sort list `[x ASC]`. -/
theorem C3_order_by_shape_witness :
    sampleRel.order_by (.TableScan "t") [] = .ok (.TableScan "t") ∧
    sampleRel.order_by samplePlanDistinctOn [sortX] =
      .ok (.Distinct (.On [colX] [colX] (some [sortX]) (.TableScan "t"))) ∧
    sampleRel.order_by (.Projection [] (.TableScan "t")) [sortX] =
      .ok (.Sort [sortX] (.Projection [] (.TableScan "t"))) :=
  ⟨(C3_order_by_shape sampleRel (.TableScan "t") [sortX]).1,
    ((C3_order_by_shape sampleRel samplePlanDistinctOn [sortX]).2
        (by intro h; cases h)).1 [colX] [colX] none (.TableScan "t") rfl,
    ((C3_order_by_shape sampleRel (.Projection [] (.TableScan "t")) [sortX]).2
        (by intro h; cases h)).2
      (fun a b c d h => by cases h)⟩

/-- C4: `limit` with a keyword-style clause carrying a non-empty LIMIT BY
list fails with NotImplemented whenever the skip, fetch and limit-by scalar
sub-expressions all plan successfully, regardless of whether skip and fetch
are present or absent. -/
theorem C4_limit_by_not_implemented (self : SqlToRel) (input : LogicalPlan)
    (lim : Option SQLExpr) (off : Option Offset) (lby : List SQLExpr)
    (ctx : PlannerContext)
    (hne : lby ≠ [])
    (hoff : ∀ o, off = some o → ∃ e, self.sql_to_expr o.value ctx = .ok e)
    (hlim : ∀ l, lim = some l → ∃ e, self.sql_to_expr l ctx = .ok e)
    (hlby : ∀ e ∈ lby, ∃ b, self.sql_to_expr e ctx = .ok b) :
    self.limit input (some (.LimitOffset lim off lby)) ctx =
      .error (.NotImplemented "LIMIT BY clause is not supported yet") := by
  rcases collectResults_ok_of_forall_ok _ lby hlby with ⟨bs, hbs, hlen⟩
  have hbsne : bs.isEmpty = false := by
    cases bs with
    | nil =>
      cases lby with
      | nil => exact absurd rfl hne
      | cons a l => simp at hlen
    | cons b bs => rfl
  cases off with
  | none =>
    cases lim with
    | none => simp [SqlToRel.limit, transposeResult, hbs, hbsne]
    | some l =>
      rcases hlim l rfl with ⟨e, he⟩
      simp [SqlToRel.limit, transposeResult, he, hbs, hbsne]
  | some o =>
    rcases hoff o rfl with ⟨eo, heo⟩
    cases lim with
    | none =>
      simp [SqlToRel.limit, transposeResult, heo, hbs, hbsne]
    | some l =>
      rcases hlim l rfl with ⟨e, he⟩
      simp [SqlToRel.limit, transposeResult, heo, he, hbs, hbsne]

/-- C4 witness: evaluated at `sampleRel` with skip and fetch absent and the
LIMIT BY list `[1]`. -/
theorem C4_limit_by_not_implemented_witness :
    ([SQLExpr.Value 1] : List SQLExpr) ≠ [] ∧
    sampleRel.limit (.TableScan "t")
        (some (.LimitOffset none none [SQLExpr.Value 1])) [] =
      .error (.NotImplemented "LIMIT BY clause is not supported yet") :=
  ⟨by simp,
    C4_limit_by_not_implemented sampleRel (.TableScan "t") none none
      [SQLExpr.Value 1] [] (by simp)
      (fun o h => nomatch h)
      (fun l h => nomatch h)
      (fun e he => by
        rw [List.mem_singleton.mp he]
        exact ⟨.Literal 1, rfl⟩)⟩

/-- C1: for a query whose body is a SELECT carrying both a LIMIT clause and
a SELECT INTO target, any successful `query_to_plan` result is a
CreateMemoryTable DDL node whose input is the limit-wrapped select plan
(the materialized input includes the limit), never a limit node wrapping the
CreateMemoryTable node. -/
theorem C1_select_into_after_limit (self : SqlToRel) (q : Query) (s : Select)
    (tgt : SelectInto) (lc : LimitClause) (ctx : PlannerContext)
    (result : LogicalPlan)
    (hbody : q.body = .Select s) (hinto : s.into = some tgt)
    (hlc : q.limit_clause = some lc)
    (hok : self.query_to_plan q ctx = .ok result) :
    ∃ (ctx2 : PlannerContext) (plan0 limited : LogicalPlan)
      (name : TableReference),
      self.select_to_plan { s with into := none } q.order_by ctx2 = .ok plan0 ∧
      self.limit plan0 (some lc) ctx2 = .ok limited ∧
      self.object_name_to_table_reference tgt.name = .ok name ∧
      result = .Ddl (.CreateMemoryTable name [] limited false false false []) := by
  unfold SqlToRel.query_to_plan at hok
  simp only [] at hok
  split at hok
  · simp at hok
  · rename_i pc hpc
    rw [hbody] at hok
    simp only [] at hok
    split at hok
    · simp at hok
    · rename_i plan0 hsel
      rw [hlc] at hok
      split at hok
      · simp at hok
      · rename_i limited hlim2
        rw [hinto] at hok
        simp only [SqlToRel.select_into] at hok
        split at hok
        · simp at hok
        · rename_i name hname
          simp only [Except.ok.injEq] at hok
          exact ⟨pc, plan0, limited, name, hsel, hlim2, hname, hok.symm⟩

/-- C1 witness: evaluated at `sampleRel` on the concrete query
`SELECT ... INTO t_out ... LIMIT 10`: the plan produced is the DDL node over
the limit node over the select plan. -/
theorem C1_select_into_after_limit_witness :
    sampleQuery.body = .Select sampleSelect ∧
    sampleSelect.into = some sampleInto ∧
    sampleQuery.limit_clause = some sampleLimitClause ∧
    sampleRel.query_to_plan sampleQuery [] = .ok samplePlan ∧
    (∃ (ctx2 : PlannerContext) (plan0 limited : LogicalPlan)
      (name : TableReference),
      sampleRel.select_to_plan { sampleSelect with into := none }
          sampleQuery.order_by ctx2 = .ok plan0 ∧
      sampleRel.limit plan0 (some sampleLimitClause) ctx2 = .ok limited ∧
      sampleRel.object_name_to_table_reference sampleInto.name = .ok name ∧
      samplePlan =
        .Ddl (.CreateMemoryTable name [] limited false false false [])) :=
  ⟨rfl, rfl, rfl, rfl,
    C1_select_into_after_limit sampleRel sampleQuery sampleSelect sampleInto
      sampleLimitClause [] samplePlan rfl rfl rfl rfl⟩

end DF
